import Mathlib

/-!
# Verification of the Curio Kids application logic

Shallow embedding of the state-manipulating logic of `src/App.tsx` and the
data model of `src/types.ts`: leaderboard maintenance, activity logging,
badge awarding, quiz scoring, streak tracking, API error handling,
registration, and the view router. Each definition mirrors the
corresponding TypeScript function; theorems settle the specification's
claims about them.
-/

namespace CurioKids

/-! ## Data model (from `src/types.ts`) -/

/-- The fixed enumerated set of badge identifiers (`enum BadgeType`). -/
inductive BadgeType
  | QUIZ_NOVICE
  | QUIZ_ADEPT
  | QUIZ_MASTER
  | TOPIC_ACE
  | PERFECT_SCORE
deriving DecidableEq, Repr

/-- All five badge kinds, the `for ... in BADGE_DEFINITIONS` iteration order. -/
def allBadgeTypes : List BadgeType :=
  [.QUIZ_NOVICE, .QUIZ_ADEPT, .QUIZ_MASTER, .TOPIC_ACE, .PERFECT_SCORE]

/-- Shape of `interface Badge`: id, display name, description, ISO date earned. -/
structure Badge where
  id : BadgeType
  name : String
  description : String
  dateEarned : String
deriving DecidableEq, Repr

/-- Shape of `interface LeaderboardEntry`. `score` is a JS number used as an integer. -/
structure LeaderboardEntry where
  userId : String
  username : String
  score : Int
  profilePictureUrl : Option String
deriving DecidableEq, Repr

/-- One per-topic performance record (`{ correct: number; total: number }`). -/
structure TopicPerf where
  correct : Nat
  total : Nat
deriving DecidableEq, Repr

/-- Shape of `interface UserStats`. `topicPerformance` (a JS object keyed by topic
name) is modelled as an association list with at most one binding per key. -/
structure UserStats where
  quizzesCompleted : Nat
  quizzesAttempted : Nat
  topicsMastered : List String
  totalScorePoints : Nat
  totalQuestionsAnswered : Nat
  timeSpentLearningInSeconds : Nat
  topicPerformance : List (String × TopicPerf)
  badges : List Badge
  currentStreak : Nat
  lastActivityDate : String
deriving DecidableEq, Repr

/-- Shape of `interface User`. -/
structure User where
  id : String
  username : String
  password : String
  isAdmin : Bool
  profilePictureUrl : Option String
  stats : UserStats
deriving DecidableEq, Repr

/-- Shape of `interface ActivityLog`: one log entry. -/
structure ActivityLog where
  id : String
  userId : String
  username : String
  timestamp : String
  type : String
  details : List (String × String)
deriving DecidableEq, Repr

/-- Shape of `interface QuizQuestion` (the fields quiz scoring uses). -/
structure QuizQuestion where
  question : String
  options : List String
  answer : String
  explanation : String
deriving DecidableEq, Repr

/-- Shape of `enum GameState`: the enumerated screen identifiers. -/
inductive GameState
  | LOGIN_SCREEN
  | HOME_SCREEN
  | GRADE_SELECTION
  | TOPIC_SELECTION
  | DIAGRAM_IDEAS_SELECTION
  | DIAGRAM_GENERATOR
  | LANGUAGE_SELECTION
  | DOUBT_SOLVER
  | VOICE_TUTOR_SESSION
  | QUIZ_DIFFICULTY_SELECTION
  | QUIZ_COUNT_SELECTION
  | QUIZ_TIMER_SELECTION
  | QUIZ_IN_PROGRESS
  | QUIZ_SCORE
  | WORKSHEET_DIFFICULTY_SELECTION
  | WORKSHEET_COUNT_SELECTION
  | WORKSHEET_DISPLAY
  | NOTES_DISPLAY
  | CONCEPT_DEEP_DIVE
  | USER_PROFILE
  | EDIT_PROFILE_PICTURE
  | ADMIN_PANEL
  | LEADERBOARD
  | VIRTUAL_LAB_INPUT
  | VIRTUAL_LAB_DISPLAY
  | REAL_WORLD_CONNECTIONS_INPUT
  | REAL_WORLD_CONNECTIONS_DISPLAY
  | HISTORICAL_CHAT_SELECTION
  | HISTORICAL_CHAT_SESSION
  | AI_STORY_WEAVER_INPUT
  | AI_STORY_WEAVER_DISPLAY
  | SCIENCE_FAIR_BUDDY_INPUT
  | SCIENCE_FAIR_BUDDY_IDEAS
  | SCIENCE_FAIR_BUDDY_PLAN
  | SCIENCE_LENS_INPUT
  | SCIENCE_LENS_DISPLAY
  | WHAT_IF_SCENARIO_INPUT
  | WHAT_IF_SCENARIO_SESSION
deriving DecidableEq, Repr

/-! ## Activity log (`addLogEntry`, App.tsx lines 239-250)

`addLogEntry` builds a new entry from the current user, the wall clock and a
fresh id, and prepends it: `setActivityLog(prev => [newLog, ...prev.slice(0, 49)])`.
When no user is logged in it returns without touching the log. The id and
timestamp generators are environment inputs, passed as parameters. -/

def addLogEntry (currentUser : Option User) (freshId now : String)
    (type : String) (details : List (String × String))
    (prev : List ActivityLog) : List ActivityLog :=
  match currentUser with
  | none => prev
  | some u =>
    let newLog : ActivityLog :=
      { id := freshId, userId := u.id, username := u.username
        timestamp := now, type := type, details := details }
    newLog :: prev.take 49

/-! ## Streak tracking (`handleActivityCompletion`, App.tsx lines 212-236)

The function early-returns when there is no user; here it is modelled on the
stats of the (present) current user. `todayStr` and `yesterdayStr` are
computed from the wall clock in the source and are parameters here.
`currentUser.stats.lastActivityDate || ''` and
`currentUser.stats.currentStreak || 0` are identities on `String` and `Nat`. -/

def handleActivityCompletion (todayStr yesterdayStr : String)
    (stats : UserStats) : UserStats :=
  let lastActivityStr := stats.lastActivityDate
  if todayStr = lastActivityStr then
    stats
  else
    let newStreak : Nat :=
      if lastActivityStr = yesterdayStr then stats.currentStreak + 1 else 1
    { stats with currentStreak := newStreak, lastActivityDate := todayStr }

/-! ## Quiz scoring (`handleAnswer`, App.tsx lines 505-552)

On each answer, `newAnswers[currentQuestionIndex] = answer` records the
answer (the timer effect at lines 555-565 calls `handleAnswer(null)` on
expiry, recording `null`). On the final question the score is
`newAnswers.forEach((ans, index) => { if (ans === questions[index].answer) finalScore++ })`;
`null === s` is false for every string `s`. -/

def recordAnswer (answers : List (Option String)) (idx : Nat)
    (answer : Option String) : List (Option String) :=
  answers.set idx answer

def computeFinalScore (answers : List (Option String))
    (questions : List QuizQuestion) : Nat :=
  ((answers.zip questions).filter
    (fun p => p.1 = some p.2.answer)).length

/-! ## Leaderboard (`updateLeaderboard`, App.tsx lines 297-311)

`findIndex` / in-place mutation of the found entry is modelled by
`updateFirstEntry`, which rewrites the first entry whose username matches.
`if (profilePictureUrl)` is JS truthiness: `undefined` and `""` are falsy.
The update ends with `.sort((a, b) => b.score - a.score).slice(0, 20)`. -/

def ppuTruthy : Option String → Bool
  | some s => s ≠ ""
  | none => false

def bumpEntry (e : LeaderboardEntry) (pointsToAdd : Int)
    (profilePictureUrl : Option String) : LeaderboardEntry :=
  let e1 := { e with score := e.score + pointsToAdd }
  if ppuTruthy profilePictureUrl then
    { e1 with profilePictureUrl := profilePictureUrl }
  else e1

def updateFirstEntry (username : String) (pointsToAdd : Int)
    (profilePictureUrl : Option String) :
    List LeaderboardEntry → List LeaderboardEntry
  | [] => []
  | e :: rest =>
    if e.username = username then
      bumpEntry e pointsToAdd profilePictureUrl :: rest
    else
      e :: updateFirstEntry username pointsToAdd profilePictureUrl rest

/-- The comparator `(a, b) => b.score - a.score`, i.e. descending by score. -/
def scoreDescLe (a b : LeaderboardEntry) : Bool :=
  b.score ≤ a.score

def updateLeaderboard (currentUser : Option User) (username : String)
    (pointsToAdd : Int) (profilePictureUrl : Option String)
    (prev : List LeaderboardEntry) : List LeaderboardEntry :=
  let newLeaderboard :=
    if prev.any (fun e => e.username = username) then
      updateFirstEntry username pointsToAdd profilePictureUrl prev
    else
      match currentUser with
      | some cu =>
        prev ++ [{ userId := cu.id, username := username,
                   score := pointsToAdd, profilePictureUrl := profilePictureUrl }]
      | none => prev
  (newLeaderboard.mergeSort scoreDescLe).take 20

/-! ## Badges (`awardBadges`, App.tsx lines 252-295)

`BADGE_DEFINITIONS` lives in `hooks/constants`, outside the given sources;
its entries (name, description, criteria predicate) are a parameter
`defs : BadgeType → BadgeDef`, keyed by the fixed `BadgeType` enumeration.
`topicPerformance[topic]?.correct || 0` is an association-list lookup
defaulting to zero; the `{ ...tp, [topic]: v }` object spread is an upsert. -/

/-- The quiz result record `{ score, questionCount, topic }` passed to each
badge's criteria predicate. -/
structure QuizResult where
  score : Nat
  questionCount : Nat
  topic : String
deriving DecidableEq, Repr

/-- Modelled from the spec: one entry of the missing `BADGE_DEFINITIONS`
constant — a display name, a description and the criteria predicate that a
stats snapshot (plus the quiz result) must satisfy for the badge to be
awarded. -/
structure BadgeDef where
  name : String
  description : String
  criteria : UserStats → QuizResult → Bool

def lookupTopic (tp : List (String × TopicPerf)) (topic : String) :
    Option TopicPerf :=
  (tp.find? (fun p => p.1 = topic)).map (·.2)

def upsertTopic (tp : List (String × TopicPerf)) (topic : String)
    (v : TopicPerf) : List (String × TopicPerf) :=
  if tp.any (fun p => p.1 = topic) then
    tp.map (fun p => if p.1 = topic then (topic, v) else p)
  else
    tp ++ [(topic, v)]

/-- The stats snapshot `updatedStats` built inside `awardBadges`. -/
def statsAfterQuiz (currentStats : UserStats) (score questionCount : Nat)
    (topic : String) : UserStats :=
  { currentStats with
    quizzesCompleted := currentStats.quizzesCompleted + 1
    quizzesAttempted := currentStats.quizzesAttempted + 1
    topicPerformance :=
      upsertTopic currentStats.topicPerformance topic
        { correct := ((lookupTopic currentStats.topicPerformance topic).map
            (·.correct)).getD 0 + score
          total := ((lookupTopic currentStats.topicPerformance topic).map
            (·.total)).getD 0 + questionCount } }

def awardBadges (defs : BadgeType → BadgeDef) (currentUser : Option User)
    (now : String) (score questionCount : Nat) (topic : String) :
    List Badge :=
  match currentUser with
  | none => []
  | some u =>
    let updatedStats := statsAfterQuiz u.stats score questionCount topic
    (allBadgeTypes.filter (fun badgeKey =>
        !(u.stats.badges.any (fun b => b.id = badgeKey)) &&
        (defs badgeKey).criteria updatedStats
          { score := score, questionCount := questionCount, topic := topic })).map
      (fun badgeKey =>
        { id := badgeKey, name := (defs badgeKey).name
          description := (defs badgeKey).description, dateEarned := now })

/-! ## Application state and handlers

A projection of the component state touched by the claims: user list,
current-user id, screen, selections, loading/error flags, generated notes,
activity log, and the auth form inputs. -/

/-- Shape of `interface NoteSection`. -/
structure NoteSection where
  title : String
  points : List String
deriving DecidableEq, Repr

structure AppState where
  users : List User
  currentUserId : Option String
  gameState : GameState
  topic : Option String
  grade : Option Nat
  isLoading : Bool
  loadingMessage : String
  apiError : Option String
  notes : List NoteSection
  activityLog : List ActivityLog
  usernameInput : String
  passwordInput : String
  authError : String
deriving Repr

/-- Embedding of `users.find(u => u.id === currentUserId) || null` (App.tsx line 37). -/
def currentUserOf (st : AppState) : Option User :=
  st.users.find? (fun u => some u.id = st.currentUserId)

/-- Embedding of `updateUserStats` (App.tsx lines 201-210): map the update over the user
whose id is the current one; no-op when nobody is logged in. -/
def updateUserStats (currentUserId : Option String)
    (updateFn : UserStats → UserStats) (users : List User) : List User :=
  match currentUserId with
  | none => users
  | some uid =>
    users.map (fun u => if u.id = uid then { u with stats := updateFn u.stats } else u)

/-! ## API error handling (`withApiErrorHandler`, App.tsx lines 318-334) -/

/-- Embedding of `message.includes(sub)`: substring containment on the character lists. -/
def includesAux (sub : List Char) : List Char → Bool
  | [] => sub.isEmpty
  | c :: rest => sub.isPrefixOf (c :: rest) || includesAux sub rest

def stringIncludes (s sub : String) : Bool :=
  includesAux sub.toList s.toList

/-- The fixed message substituted when the error text mentions an invalid
API key. -/
def invalidKeyMessage : String :=
  "The provided API Key is not valid. Please check the configuration."

/-- A wrapped API call either resolves with a value or throws an error
carrying a message, modelled by `Except String`. -/
def withApiErrorHandler (st : AppState) (apiCall : Except String α) :
    AppState × Option α :=
  match apiCall with
  | .ok result => ({ st with apiError := none }, some result)
  | .error message =>
    let st1 :=
      if stringIncludes message "API key not valid" then
        { st with apiError := some invalidKeyMessage }
      else
        { st with apiError := some message }
    ({ st1 with isLoading := false }, none)

/-- Embedding of `handleGenerateNotes` (App.tsx lines 392-404). `freshId`/`now`/`today`/
`yesterday` are the environment inputs of the logging and streak calls made
on the success path. -/
def handleGenerateNotes (freshId now today yesterday : String)
    (st : AppState) (apiCall : Except String (List NoteSection)) : AppState :=
  match st.topic, st.grade with
  | some topic, some grade =>
    let st1 := { st with
      isLoading := true
      loadingMessage := "Generating study notes for " ++ topic }
    let res := withApiErrorHandler st1 apiCall
    let st3 :=
      match res.2 with
      | some notesResult =>
        let stA := { res.1 with
          notes := notesResult
          gameState := GameState.NOTES_DISPLAY }
        let log2 := addLogEntry (currentUserOf stA) freshId now
          "NOTES_GENERATED" [("topic", topic), ("grade", toString grade)]
          stA.activityLog
        let stB := { stA with activityLog := log2 }
        let users2 := updateUserStats stB.currentUserId
          (handleActivityCompletion today yesterday) stB.users
        { stB with users := users2 }
      | none => res.1
    { st3 with isLoading := false }
  | _, _ => st

/-! ## Registration (`handleRegister`, App.tsx lines 1085-1120)

`!usernameInput` / `!passwordInput` are JS falsiness on strings, i.e.
emptiness. The trailing `addLogEntry('USER_REGISTERED', {})` runs with the
`currentUser` captured at render time — the registration form only renders
when nobody is logged in, so that captured user is the pre-call one. -/

def initialUserStats : UserStats :=
  { quizzesCompleted := 0
    quizzesAttempted := 0
    topicsMastered := []
    totalScorePoints := 0
    totalQuestionsAnswered := 0
    timeSpentLearningInSeconds := 0
    topicPerformance := []
    badges := []
    currentStreak := 0
    lastActivityDate := "" }

def handleRegister (freshId now : String) (st : AppState) : AppState :=
  let st0 := { st with authError := "" }
  if st0.users.any (fun u => u.username = st0.usernameInput) then
    { st0 with authError := "Username already exists." }
  else if st0.usernameInput = "" ∨ st0.passwordInput = "" then
    { st0 with authError := "Username and password cannot be empty." }
  else
    let newUser : User :=
      { id := freshId
        username := st0.usernameInput
        password := st0.passwordInput
        isAdmin := false
        profilePictureUrl := none
        stats := initialUserStats }
    { st0 with
      users := st0.users ++ [newUser]
      currentUserId := some newUser.id
      gameState := GameState.HOME_SCREEN
      usernameInput := ""
      passwordInput := ""
      activityLog :=
        addLogEntry (currentUserOf st) freshId now "USER_REGISTERED" []
          st0.activityLog }

/-! ## View router (`renderContent`, App.tsx lines 1224-2200)

A single flat `switch (gameState)`: each case returns one view panel; the
two screen values without a case (`LOGIN_SCREEN`, handled before the router,
and `REAL_WORLD_CONNECTIONS_INPUT`, never reached) fall to the `default`
branch rendering "Unknown game state". The selected panel is identified by a
tag; the quiz and worksheet difficulty screens share one case body. -/

inductive Panel
  | home
  | gradeSelection
  | topicSelection
  | languageSelection
  | diagramIdeasSelection
  | diagramGenerator
  | voiceTutorSession
  | doubtSolver
  | difficultySelection
  | quizCountSelection
  | worksheetCountSelection
  | quizTimerSelection
  | quizInProgress
  | quizScore
  | worksheetDisplay
  | notesDisplay
  | conceptDeepDive
  | userProfile
  | editProfilePicture
  | adminPanel
  | leaderboardPanel
  | virtualLabInput
  | virtualLabDisplay
  | realWorldConnectionsDisplay
  | historicalChatSelection
  | historicalChatSession
  | aiStoryWeaverInput
  | aiStoryWeaverDisplay
  | scienceFairBuddyInput
  | scienceFairBuddyIdeas
  | scienceFairBuddyPlan
  | scienceLensInput
  | scienceLensDisplay
  | whatIfScenarioInput
  | whatIfScenarioSession
  | unknownGameState
deriving DecidableEq, Repr

def renderContent (st : AppState) : Panel :=
  match st.gameState with
  | .HOME_SCREEN => .home
  | .GRADE_SELECTION => .gradeSelection
  | .TOPIC_SELECTION => .topicSelection
  | .LANGUAGE_SELECTION => .languageSelection
  | .DIAGRAM_IDEAS_SELECTION => .diagramIdeasSelection
  | .DIAGRAM_GENERATOR => .diagramGenerator
  | .VOICE_TUTOR_SESSION => .voiceTutorSession
  | .DOUBT_SOLVER => .doubtSolver
  | .QUIZ_DIFFICULTY_SELECTION => .difficultySelection
  | .WORKSHEET_DIFFICULTY_SELECTION => .difficultySelection
  | .QUIZ_COUNT_SELECTION => .quizCountSelection
  | .WORKSHEET_COUNT_SELECTION => .worksheetCountSelection
  | .QUIZ_TIMER_SELECTION => .quizTimerSelection
  | .QUIZ_IN_PROGRESS => .quizInProgress
  | .QUIZ_SCORE => .quizScore
  | .WORKSHEET_DISPLAY => .worksheetDisplay
  | .NOTES_DISPLAY => .notesDisplay
  | .CONCEPT_DEEP_DIVE => .conceptDeepDive
  | .USER_PROFILE => .userProfile
  | .EDIT_PROFILE_PICTURE => .editProfilePicture
  | .ADMIN_PANEL => .adminPanel
  | .LEADERBOARD => .leaderboardPanel
  | .VIRTUAL_LAB_INPUT => .virtualLabInput
  | .VIRTUAL_LAB_DISPLAY => .virtualLabDisplay
  | .REAL_WORLD_CONNECTIONS_DISPLAY => .realWorldConnectionsDisplay
  | .HISTORICAL_CHAT_SELECTION => .historicalChatSelection
  | .HISTORICAL_CHAT_SESSION => .historicalChatSession
  | .AI_STORY_WEAVER_INPUT => .aiStoryWeaverInput
  | .AI_STORY_WEAVER_DISPLAY => .aiStoryWeaverDisplay
  | .SCIENCE_FAIR_BUDDY_INPUT => .scienceFairBuddyInput
  | .SCIENCE_FAIR_BUDDY_IDEAS => .scienceFairBuddyIdeas
  | .SCIENCE_FAIR_BUDDY_PLAN => .scienceFairBuddyPlan
  | .SCIENCE_LENS_INPUT => .scienceLensInput
  | .SCIENCE_LENS_DISPLAY => .scienceLensDisplay
  | .WHAT_IF_SCENARIO_INPUT => .whatIfScenarioInput
  | .WHAT_IF_SCENARIO_SESSION => .whatIfScenarioSession
  | _ => .unknownGameState

/-! ## Concrete fixtures used by witnesses and counterexamples -/

/-- A user with fresh (all-zero) stats. -/
def sampleUser : User :=
  { id := "id-reg", username := "zz", password := "pw", isAdmin := false
    profilePictureUrl := none, stats := initialUserStats }

/-- A full leaderboard: twenty entries, each with score 1. -/
def sampleLeaderboard20 : List LeaderboardEntry :=
  (List.range 20).map (fun i =>
    { userId := toString i, username := "u" ++ toString i, score := 1
      profilePictureUrl := none })

/-- Badge definitions whose criteria always hold. -/
def trivialBadgeDefs : BadgeType → BadgeDef := fun _ =>
  { name := "badge", description := "desc", criteria := fun _ _ => true }

def sampleState : AppState :=
  { users := [sampleUser], currentUserId := some "id-reg"
    gameState := GameState.TOPIC_SELECTION, topic := some "Light"
    grade := some 6, isLoading := false, loadingMessage := ""
    apiError := none, notes := [], activityLog := []
    usernameInput := "", passwordInput := "", authError := "" }

def sampleRegState : AppState :=
  { sampleState with
    users := []
    currentUserId := none
    gameState := GameState.LOGIN_SCREEN
    usernameInput := "newkid"
    passwordInput := "secret" }

/-- Same screen as `sampleState` but different everything else. -/
def sampleStateAlt : AppState :=
  { sampleState with
    users := [], currentUserId := none, topic := none, grade := none
    isLoading := true, loadingMessage := "x", notes := []
    usernameInput := "a", passwordInput := "b", authError := "c" }

def sampleStats : UserStats :=
  { initialUserStats with lastActivityDate := "2026-10-11", currentStreak := 4 }

def emptyQuestion : QuizQuestion :=
  { question := "", options := [], answer := "", explanation := "" }

def sampleQuestions : List QuizQuestion :=
  [{ emptyQuestion with question := "q1", answer := "a" },
   { emptyQuestion with question := "q2", answer := "b" },
   { emptyQuestion with question := "q3", answer := "c" }]

/-- One correct answer, one unanswered (timer-expired) question, one wrong. -/
def sampleAnswers : List (Option String) :=
  [some "a", none, some "x"]

/-- The fresh leaderboard entry `updateLeaderboard` pushes for `sampleUser`
with 0 points to add. -/
def freshZZ : LeaderboardEntry :=
  { userId := "id-reg", username := "zz", score := 0, profilePictureUrl := none }

/-! ## Claims -/

/-- Claim C2: Every `addLogEntry` call made while a user is logged in places
the new entry at the front of the activity log and leaves at most 50 entries
in the single shared log (whatever mix of users produced the previous
entries); when no user is logged in the log is unchanged. -/
theorem addLogEntry_spec (u : User) (freshId now ty : String)
    (details : List (String × String)) (prev : List ActivityLog) :
    (addLogEntry (some u) freshId now ty details prev).length ≤ 50 ∧
    (addLogEntry (some u) freshId now ty details prev).head? =
      some { id := freshId, userId := u.id, username := u.username
             timestamp := now, type := ty, details := details } ∧
    addLogEntry none freshId now ty details prev = prev := by
  refine ⟨?_, rfl, rfl⟩
  have h := List.length_take_le 49 prev
  simp only [addLogEntry, List.length_cons]
  omega

/-- Claim C6: On an activity completion by a logged-in user: if the stored
`lastActivityDate` is today, the stats are unchanged; otherwise
`lastActivityDate` becomes today and `currentStreak` becomes the previous
streak plus one exactly when the stored date was yesterday (1 in every other
case), with every other stats field untouched. -/
theorem handleActivityCompletion_spec (today yesterday : String)
    (stats : UserStats) :
    (stats.lastActivityDate = today →
      handleActivityCompletion today yesterday stats = stats) ∧
    (stats.lastActivityDate ≠ today →
      (handleActivityCompletion today yesterday stats).lastActivityDate = today ∧
      (handleActivityCompletion today yesterday stats).currentStreak =
        (if stats.lastActivityDate = yesterday then stats.currentStreak + 1 else 1) ∧
      (handleActivityCompletion today yesterday stats).quizzesCompleted = stats.quizzesCompleted ∧
      (handleActivityCompletion today yesterday stats).quizzesAttempted = stats.quizzesAttempted ∧
      (handleActivityCompletion today yesterday stats).topicsMastered = stats.topicsMastered ∧
      (handleActivityCompletion today yesterday stats).totalScorePoints = stats.totalScorePoints ∧
      (handleActivityCompletion today yesterday stats).totalQuestionsAnswered = stats.totalQuestionsAnswered ∧
      (handleActivityCompletion today yesterday stats).timeSpentLearningInSeconds = stats.timeSpentLearningInSeconds ∧
      (handleActivityCompletion today yesterday stats).topicPerformance = stats.topicPerformance ∧
      (handleActivityCompletion today yesterday stats).badges = stats.badges) := by
  constructor
  · intro h
    simp [handleActivityCompletion, h.symm]
  · intro h
    have h' : ¬ today = stats.lastActivityDate := fun hc => h hc.symm
    by_cases hy : stats.lastActivityDate = yesterday
    · have h2 : ¬ today = yesterday := fun hc => h' (hc.trans hy.symm)
      simp [handleActivityCompletion, if_neg h', hy, h2]
    · simp [handleActivityCompletion, if_neg h', hy]

/-- Witness for C6 at a concrete yesterday-streak input. -/
theorem handleActivityCompletion_spec_witness :
    (handleActivityCompletion "2026-10-12" "2026-10-11" sampleStats).currentStreak = 5 ∧
    (handleActivityCompletion "2026-10-12" "2026-10-11" sampleStats).lastActivityDate = "2026-10-12" := by
  have h := (handleActivityCompletion_spec "2026-10-12" "2026-10-11" sampleStats).2
    (by decide)
  exact ⟨by rw [h.2.1]; decide, h.1⟩

/-- Claim C10: The view router is a flat dispatch on the screen value: the
selected panel is a function of `gameState` alone (two states agreeing on
the screen select the same panel), and the screen values without a case
(`LOGIN_SCREEN`, `REAL_WORLD_CONNECTIONS_INPUT`) fall to the default
branch. -/
theorem renderContent_spec :
    (∀ st1 st2 : AppState, st1.gameState = st2.gameState →
      renderContent st1 = renderContent st2) ∧
    (∀ st : AppState,
      st.gameState = GameState.LOGIN_SCREEN ∨
      st.gameState = GameState.REAL_WORLD_CONNECTIONS_INPUT →
      renderContent st = Panel.unknownGameState) := by
  constructor
  · intro st1 st2 h
    unfold renderContent
    rw [h]
  · intro st h
    rcases h with h | h <;> simp [renderContent, h]

/-- Witness for C10: two states sharing a screen but agreeing on nothing
else render the same panel, and a default-branch screen value. -/
theorem renderContent_spec_witness :
    renderContent sampleState = renderContent sampleStateAlt ∧
    renderContent { sampleState with gameState := GameState.LOGIN_SCREEN } =
      Panel.unknownGameState := by
  exact ⟨renderContent_spec.1 sampleState sampleStateAlt rfl,
    renderContent_spec.2 _ (Or.inl rfl)⟩

/-- Claim C8: A registration with a username no existing user holds and
non-empty username and password appends exactly one new user record —
submitted credentials, not admin, all-zero stats — and logs that user in. -/
theorem handleRegister_success (freshId now : String) (st : AppState)
    (hdup : ∀ u ∈ st.users, u.username ≠ st.usernameInput)
    (hu : st.usernameInput ≠ "") (hp : st.passwordInput ≠ "") :
    (handleRegister freshId now st).users =
      st.users ++
        [{ id := freshId
           username := st.usernameInput
           password := st.passwordInput
           isAdmin := false
           profilePictureUrl := none
           stats :=
             { quizzesCompleted := 0, quizzesAttempted := 0
               topicsMastered := [], totalScorePoints := 0
               totalQuestionsAnswered := 0, timeSpentLearningInSeconds := 0
               topicPerformance := [], badges := []
               currentStreak := 0, lastActivityDate := "" } }] ∧
    (handleRegister freshId now st).currentUserId = some freshId ∧
    (handleRegister freshId now st).gameState = GameState.HOME_SCREEN := by
  have hany : ¬ st.users.any (fun u => u.username = st.usernameInput) := by
    simp only [List.any_eq_true, decide_eq_true_eq, not_exists]
    intro u
    exact fun h => absurd h.2 (hdup u h.1)
  have hcond : ¬ (st.usernameInput = "" ∨ st.passwordInput = "") := by
    rintro (h | h)
    · exact hu h
    · exact hp h
  simp [handleRegister, hany, hcond, initialUserStats]

/-- Witness for C8 at a concrete registration. -/
theorem handleRegister_success_witness :
    (handleRegister "uid-1" "now" sampleRegState).users =
      [{ id := "uid-1", username := "newkid", password := "secret"
         isAdmin := false, profilePictureUrl := none
         stats :=
           { quizzesCompleted := 0, quizzesAttempted := 0
             topicsMastered := [], totalScorePoints := 0
             totalQuestionsAnswered := 0, timeSpentLearningInSeconds := 0
             topicPerformance := [], badges := []
             currentStreak := 0, lastActivityDate := "" } }] ∧
    (handleRegister "uid-1" "now" sampleRegState).currentUserId = some "uid-1" := by
  have h := handleRegister_success "uid-1" "now" sampleRegState
    (by intro u hu; simp [sampleRegState, sampleState] at hu) (by decide) (by decide)
  exact ⟨h.1, h.2.1⟩

/-- Claim C9: A registration with a taken username, an empty username or an
empty password changes neither the user list nor the current-user id and
sets a non-empty authentication error: registration is atomic. -/
theorem handleRegister_failure (freshId now : String) (st : AppState)
    (h : (∃ u ∈ st.users, u.username = st.usernameInput) ∨
      st.usernameInput = "" ∨ st.passwordInput = "") :
    (handleRegister freshId now st).users = st.users ∧
    (handleRegister freshId now st).currentUserId = st.currentUserId ∧
    (handleRegister freshId now st).authError ≠ "" := by
  by_cases hany : st.users.any (fun u => u.username = st.usernameInput)
  · simp [handleRegister, hany]
  · have hcond : st.usernameInput = "" ∨ st.passwordInput = "" := by
      rcases h with h | h
      · exact absurd (by simpa [List.any_eq_true] using h) hany
      · exact h
    simp [handleRegister, hany, hcond]

/-- Witness for C9: registering an already-taken username. -/
theorem handleRegister_failure_witness :
    (handleRegister "uid-2" "now"
      { sampleState with usernameInput := "zz", passwordInput := "pw2" }).users =
      ({ sampleState with usernameInput := "zz", passwordInput := "pw2" } : AppState).users ∧
    (handleRegister "uid-2" "now"
      { sampleState with usernameInput := "zz", passwordInput := "pw2" }).authError ≠ "" := by
  have h := handleRegister_failure "uid-2" "now"
    { sampleState with usernameInput := "zz", passwordInput := "pw2" }
    (Or.inl ⟨sampleUser, by simp [sampleState], by simp [sampleUser]⟩)
  exact ⟨h.1, h.2.2⟩

/-- Claim C7: When the wrapped generation call throws, `withApiErrorHandler`
returns `null` after storing the message (with the fixed substitution when
the text mentions an invalid API key) and clearing the loading flag, and
`handleGenerateNotes` performs no navigation and leaves the generated
content, user list and log unchanged. -/
theorem handleGenerateNotes_error_spec (freshId now today yesterday : String)
    (st : AppState) (t : String) (g : Nat) (e : String)
    (ht : st.topic = some t) (hg : st.grade = some g) :
    (withApiErrorHandler st (Except.error e)).2 = (none : Option (List NoteSection)) ∧
    (handleGenerateNotes freshId now today yesterday st (Except.error e)).gameState = st.gameState ∧
    (handleGenerateNotes freshId now today yesterday st (Except.error e)).notes = st.notes ∧
    (handleGenerateNotes freshId now today yesterday st (Except.error e)).users = st.users ∧
    (handleGenerateNotes freshId now today yesterday st (Except.error e)).activityLog = st.activityLog ∧
    (handleGenerateNotes freshId now today yesterday st (Except.error e)).isLoading = false ∧
    (handleGenerateNotes freshId now today yesterday st (Except.error e)).apiError =
      some (if stringIncludes e "API key not valid" then invalidKeyMessage else e) := by
  refine ⟨rfl, ?_⟩
  by_cases hk : stringIncludes e "API key not valid" <;>
    simp [handleGenerateNotes, withApiErrorHandler, ht, hg, hk]

/-- Witness for C7 on a concrete invalid-API-key error. -/
theorem handleGenerateNotes_error_spec_witness :
    (handleGenerateNotes "id" "now" "2026-10-12" "2026-10-11" sampleState
      (Except.error "boom: API key not valid.")).gameState = sampleState.gameState ∧
    (handleGenerateNotes "id" "now" "2026-10-12" "2026-10-11" sampleState
      (Except.error "boom: API key not valid.")).apiError = some invalidKeyMessage := by
  have h := handleGenerateNotes_error_spec "id" "now" "2026-10-12" "2026-10-11"
    sampleState "Light" 6 "boom: API key not valid." rfl rfl
  refine ⟨h.2.1, ?_⟩
  have h7 := h.2.2.2.2.2.2
  rw [h7]
  norm_num [stringIncludes, includesAux]

/-- Counting matches over a zip of equal-length lists equals counting the
indices at which the components match. -/
theorem length_filter_zip_eq_range {α β : Type} (p : α → β → Bool)
    (da : α) (db : β) :
    ∀ (as : List α) (qs : List β), as.length = qs.length →
    ((as.zip qs).filter (fun x => p x.1 x.2)).length =
    ((List.range qs.length).filter
      (fun i => p (as.getD i da) (qs.getD i db))).length := by
  intro as
  induction as with
  | nil =>
    intro qs h
    cases qs with
    | nil => simp
    | cons q qs => simp at h
  | cons a as ih =>
    intro qs h
    cases qs with
    | nil => simp at h
    | cons q qs =>
      have h' : as.length = qs.length := by simpa using h
      have ihq := ih qs h'
      have hstep :
          List.filter ((fun i => p ((a :: as)[i]?.getD da) ((q :: qs)[i]?.getD db)) ∘
              Nat.succ) (List.range qs.length) =
          List.filter (fun i => p (as[i]?.getD da) (qs[i]?.getD db))
            (List.range qs.length) := by
        apply List.filter_congr
        intro i hi
        simp [Function.comp]
      by_cases hp : p a q <;>
        simp [hp, ihq, List.range_succ_eq_map, List.filter_cons,
          List.filter_map, List.length_map, hstep]

/-- The score never exceeds the number of answered (non-null) questions. -/
theorem computeFinalScore_le_answered :
    ∀ (as : List (Option String)) (qs : List QuizQuestion),
    computeFinalScore as qs ≤ (as.filter (fun a => a.isSome)).length := by
  intro as
  induction as with
  | nil => intro qs; simp [computeFinalScore]
  | cons a as ih =>
    intro qs
    cases qs with
    | nil => simp [computeFinalScore]
    | cons q qs =>
      have ihq := ih qs
      by_cases hp : a = some q.answer
      · subst hp
        simpa [computeFinalScore, List.filter_cons] using Nat.succ_le_succ ihq
      · cases a with
        | none => simpa [computeFinalScore, List.filter_cons, hp] using ihq
        | some s =>
          simpa [computeFinalScore, List.filter_cons, hp] using
            Nat.le_succ_of_le ihq

/-- Claim C5: On the final answer of a quiz, the computed score is the number
of question indices whose recorded answer equals that question's `answer`
field; it therefore lies between 0 and the question count, and it never
exceeds the number of answered questions, so a `null` answer (recorded on
timer expiry) never counts as correct. -/
theorem computeFinalScore_spec (answers : List (Option String))
    (questions : List QuizQuestion)
    (h : answers.length = questions.length) :
    computeFinalScore answers questions =
      ((List.range questions.length).filter
        (fun i => answers.getD i none =
          some ((questions.getD i emptyQuestion).answer))).length ∧
    computeFinalScore answers questions ≤ questions.length ∧
    computeFinalScore answers questions ≤
      (answers.filter (fun a => a.isSome)).length := by
  refine ⟨?_, ?_, computeFinalScore_le_answered answers questions⟩
  · exact length_filter_zip_eq_range
      (fun a q => a = some q.answer) none emptyQuestion answers questions h
  · calc computeFinalScore answers questions
        ≤ (answers.zip questions).length :=
          List.length_filter_le _ _
      _ ≤ questions.length := by
          rw [List.length_zip]
          exact min_le_right _ _

/-- Witness for C5 on a three-question quiz with one unanswered question. -/
theorem computeFinalScore_spec_witness :
    computeFinalScore sampleAnswers sampleQuestions =
      ((List.range sampleQuestions.length).filter
        (fun i => sampleAnswers.getD i none =
          some ((sampleQuestions.getD i emptyQuestion).answer))).length ∧
    computeFinalScore sampleAnswers sampleQuestions ≤ sampleQuestions.length := by
  have h := computeFinalScore_spec sampleAnswers sampleQuestions (by decide)
  exact ⟨h.1, h.2.1⟩

/-- The ids of the badges returned by `awardBadges` are exactly the badge
kinds passing the not-already-held-and-criteria filter. -/
theorem awardBadges_map_id (defs : BadgeType → BadgeDef) (u : User)
    (now : String) (score questionCount : Nat) (topic : String) :
    (awardBadges defs (some u) now score questionCount topic).map (·.id) =
      allBadgeTypes.filter (fun badgeKey =>
        !(u.stats.badges.any (fun b => b.id = badgeKey)) &&
        (defs badgeKey).criteria (statsAfterQuiz u.stats score questionCount topic)
          { score := score, questionCount := questionCount, topic := topic }) := by
  have hfun : ((fun x : Badge => x.id) ∘ fun badgeKey : BadgeType =>
      ({ id := badgeKey, name := (defs badgeKey).name
         description := (defs badgeKey).description, dateEarned := now } : Badge)) =
      (fun bt : BadgeType => bt) := rfl
  simp [awardBadges, List.map_map, hfun]

/-- Claim C3: `awardBadges` never returns a badge kind the user already holds,
and within one call each kind appears at most once; hence appending the
earned badges to the user's badge list (as quiz completion does) preserves
distinctness of badge ids across any sequence of completed quizzes. -/
theorem awardBadges_at_most_once (defs : BadgeType → BadgeDef) (u : User)
    (now : String) (score questionCount : Nat) (topic : String)
    (hnd : (u.stats.badges.map (·.id)).Nodup) :
    (∀ b ∈ awardBadges defs (some u) now score questionCount topic,
      ∀ b0 ∈ u.stats.badges, b0.id ≠ b.id) ∧
    ((u.stats.badges ++
        awardBadges defs (some u) now score questionCount topic).map
      (·.id)).Nodup := by
  have hmem : ∀ b ∈ awardBadges defs (some u) now score questionCount topic,
      ∀ b0 ∈ u.stats.badges, b0.id ≠ b.id := by
    intro b hb b0 hb0
    simp only [awardBadges, List.mem_map, List.mem_filter, Bool.and_eq_true,
      Bool.not_eq_true', List.any_eq_false, decide_eq_true_eq] at hb
    obtain ⟨bt, ⟨_, hheld, _⟩, rfl⟩ := hb
    exact hheld b0 hb0
  refine ⟨hmem, ?_⟩
  rw [List.map_append, List.nodup_append]
  refine ⟨hnd, ?_, ?_⟩
  · rw [awardBadges_map_id]
    exact List.Nodup.filter _ (by decide)
  · intro x hx hx'
    obtain ⟨b0, hb0, rfl⟩ := List.mem_map.mp hx
    obtain ⟨b, hb, hbid⟩ := List.mem_map.mp hx'
    exact hmem b hb b0 hb0 hbid.symm

/-- Witness for C3: a fresh user earning every badge keeps distinct ids. -/
theorem awardBadges_at_most_once_witness :
    ((sampleUser.stats.badges ++
        awardBadges trivialBadgeDefs (some sampleUser) "now" 5 5 "Light").map
      (·.id)).Nodup :=
  (awardBadges_at_most_once trivialBadgeDefs sampleUser "now" 5 5 "Light"
    (by simp [sampleUser, initialUserStats])).2

/-- Claim C4: `awardBadges` awards a badge kind exactly when the user does not
already hold it and its criteria predicate accepts the snapshot built from
the stored stats with both quiz counters incremented and the quiz topic's
correct/total counts incremented by the score and question count; every
awarded badge is drawn from the enumerated `BadgeType` set and carries the
definition's name and description and the current date. -/
theorem awardBadges_criteria_iff (defs : BadgeType → BadgeDef) (u : User)
    (now : String) (score questionCount : Nat) (topic : String) :
    (∀ bt : BadgeType,
      (∃ b ∈ awardBadges defs (some u) now score questionCount topic,
          b.id = bt) ↔
        ((∀ b0 ∈ u.stats.badges, b0.id ≠ bt) ∧
          (defs bt).criteria
            { u.stats with
              quizzesCompleted := u.stats.quizzesCompleted + 1
              quizzesAttempted := u.stats.quizzesAttempted + 1
              topicPerformance := upsertTopic u.stats.topicPerformance topic
                { correct := ((lookupTopic u.stats.topicPerformance topic).map
                    (·.correct)).getD 0 + score
                  total := ((lookupTopic u.stats.topicPerformance topic).map
                    (·.total)).getD 0 + questionCount } }
            { score := score, questionCount := questionCount, topic := topic } =
            true)) ∧
    (∀ b ∈ awardBadges defs (some u) now score questionCount topic,
      b.id ∈ allBadgeTypes ∧ b.name = (defs b.id).name ∧
      b.description = (defs b.id).description ∧ b.dateEarned = now) := by
  constructor
  · intro bt
    constructor
    · rintro ⟨b, hb, rfl⟩
      simp only [awardBadges, statsAfterQuiz, List.mem_map, List.mem_filter,
        Bool.and_eq_true, Bool.not_eq_true', List.any_eq_false,
        decide_eq_true_eq] at hb
      obtain ⟨bt', ⟨_, hheld, hcrit⟩, rfl⟩ := hb
      exact ⟨hheld, hcrit⟩
    · rintro ⟨hheld, hcrit⟩
      refine ⟨{ id := bt, name := (defs bt).name
                description := (defs bt).description, dateEarned := now },
              ?_, rfl⟩
      simp only [awardBadges, statsAfterQuiz, List.mem_map, List.mem_filter,
        Bool.and_eq_true, Bool.not_eq_true', List.any_eq_false,
        decide_eq_true_eq]
      exact ⟨bt, ⟨by cases bt <;> decide, hheld, hcrit⟩, rfl⟩
  · intro b hb
    simp only [awardBadges, List.mem_map, List.mem_filter] at hb
    obtain ⟨bt', ⟨hbt', _⟩, rfl⟩ := hb
    exact ⟨hbt', rfl, rfl, rfl⟩

/-- Witness for C4: with always-true criteria a fresh user earns the
novice badge. -/
theorem awardBadges_criteria_iff_witness :
    ∃ b ∈ awardBadges trivialBadgeDefs (some sampleUser) "now" 2 3 "Light",
      b.id = BadgeType.QUIZ_NOVICE :=
  ((awardBadges_criteria_iff trivialBadgeDefs sampleUser "now" 2 3 "Light").1
    BadgeType.QUIZ_NOVICE).mpr
    ⟨by simp [sampleUser, initialUserStats], rfl⟩

theorem scoreDescLe_trans : ∀ a b c : LeaderboardEntry,
    scoreDescLe a b → scoreDescLe b c → scoreDescLe a c := by
  intro a b c hab hbc
  simp only [scoreDescLe, decide_eq_true_eq] at *
  omega

theorem scoreDescLe_total : ∀ a b : LeaderboardEntry,
    scoreDescLe a b || scoreDescLe b a := by
  intro a b
  simp only [scoreDescLe, Bool.or_eq_true, decide_eq_true_eq]
  omega

/-- Sorting with the descending comparator yields a list that is pairwise
descending in score. -/
theorem pairwise_mergeSort_scoreDesc (l : List LeaderboardEntry) :
    (l.mergeSort scoreDescLe).Pairwise (fun a b => b.score ≤ a.score) :=
  (List.sorted_mergeSort scoreDescLe_trans scoreDescLe_total l).imp
    (fun h => by simpa [scoreDescLe] using h)

theorem bumpEntry_score (e : LeaderboardEntry) (pts : Int)
    (ppu : Option String) : (bumpEntry e pts ppu).score = e.score + pts := by
  unfold bumpEntry
  split <;> rfl

theorem bumpEntry_username (e : LeaderboardEntry) (pts : Int)
    (ppu : Option String) : (bumpEntry e pts ppu).username = e.username := by
  unfold bumpEntry
  split <;> rfl

/-- With distinct usernames, any entry of the rewritten list carrying the
target username is the first-match entry with the points added. -/
theorem mem_updateFirstEntry_score (uname : String) (pts : Int)
    (ppu : Option String) :
    ∀ (prev : List LeaderboardEntry),
      (prev.map (fun e => e.username)).Nodup →
      ∀ e ∈ updateFirstEntry uname pts ppu prev, e.username = uname →
      ∃ e0, prev.find? (fun x => x.username = uname) = some e0 ∧
        e.score = e0.score + pts := by
  intro prev
  induction prev with
  | nil => intro _ e he; simp [updateFirstEntry] at he
  | cons a prev ih =>
    intro hnd e he hu
    have hnd' : (prev.map (fun e => e.username)).Nodup :=
      (List.nodup_cons.mp hnd).2
    have hnotin : a.username ∉ prev.map (fun e => e.username) :=
      (List.nodup_cons.mp hnd).1
    by_cases ha : a.username = uname
    · rw [updateFirstEntry, if_pos ha] at he
      rcases List.mem_cons.mp he with rfl | hmem
      · exact ⟨a, List.find?_cons_of_pos _ (by simpa using ha),
          bumpEntry_score a pts ppu⟩
      · exfalso
        apply hnotin
        rw [ha, ← hu]
        exact List.mem_map.mpr ⟨e, hmem, rfl⟩
    · rw [updateFirstEntry, if_neg ha] at he
      rcases List.mem_cons.mp he with rfl | hmem
      · exact absurd hu ha
      · obtain ⟨e0, hfind, hscore⟩ := ih hnd' e hmem hu
        exact ⟨e0, by rwa [List.find?_cons_of_neg _ (by simpa using ha)], hscore⟩

/-- Claim C1, amended: After `updateLeaderboard` with a logged-in user, the
leaderboard is sorted descending by score and holds at most 20 entries, and
— provided existing usernames are distinct — any entry for the named user
carries the previous cumulative score plus the added points (or exactly the
added points when the user was absent); the user's entry can, however, be
truncated away when it falls outside the top 20. -/
theorem updateLeaderboard_spec (cu : User) (uname : String) (pts : Int)
    (ppu : Option String) (prev : List LeaderboardEntry)
    (hnd : (prev.map (fun e => e.username)).Nodup) :
    (updateLeaderboard (some cu) uname pts ppu prev).Pairwise
      (fun a b => b.score ≤ a.score) ∧
    (updateLeaderboard (some cu) uname pts ppu prev).length ≤ 20 ∧
    (∀ e ∈ updateLeaderboard (some cu) uname pts ppu prev, e.username = uname →
      e.score = (match prev.find? (fun x => x.username = uname) with
                 | some e0 => e0.score + pts
                 | none => pts)) := by
  refine ⟨?_, ?_, ?_⟩
  · exact List.Pairwise.sublist (List.take_sublist _ _)
      (pairwise_mergeSort_scoreDesc _)
  · simp [updateLeaderboard]
  · intro e he hu
    have hmem : e ∈ (if prev.any (fun e => e.username = uname) then
        updateFirstEntry uname pts ppu prev
      else
        prev ++ [{ userId := cu.id, username := uname, score := pts
                   profilePictureUrl := ppu }]) := by
      have := List.mem_of_mem_take he
      rwa [List.mem_mergeSort] at this
    by_cases hany : prev.any (fun e => e.username = uname)
    · rw [if_pos hany] at hmem
      obtain ⟨e0, hfind, hscore⟩ :=
        mem_updateFirstEntry_score uname pts ppu prev hnd e hmem hu
      rw [hfind]
      exact hscore
    · rw [if_neg hany] at hmem
      have hfind : prev.find? (fun x => x.username = uname) = none := by
        rw [List.find?_eq_none]
        intro x hx
        simp only [List.any_eq_true, decide_eq_true_eq, not_exists] at hany
        simpa using fun hcx => (hany x) ⟨hx, hcx⟩
      rw [hfind]
      rcases List.mem_append.mp hmem with hmem | hmem
      · exfalso
        simp only [List.any_eq_true, decide_eq_true_eq] at hany
        exact hany ⟨e, hmem, hu⟩
      · rcases List.mem_singleton.mp hmem with rfl
        rfl

/-- Witness for C1 (amended): adding points for a user absent from an empty
leaderboard. -/
theorem updateLeaderboard_spec_witness :
    (updateLeaderboard (some sampleUser) "zz" 5 none []).Pairwise
      (fun a b => b.score ≤ a.score) ∧
    (updateLeaderboard (some sampleUser) "zz" 5 none []).length ≤ 20 := by
  have h := updateLeaderboard_spec sampleUser "zz" 5 none [] (by decide)
  exact ⟨h.1, h.2.1⟩

/-- Counterexample to C1 as stated: on a full leaderboard of twenty score-1
entries, adding 0 points for the absent (but logged-in) user `"zz"` leaves
no entry for `"zz"` at all — the fresh entry is truncated away. -/
theorem updateLeaderboard_counterexample :
    sampleLeaderboard20.length = 20 ∧
    (∀ e ∈ sampleLeaderboard20, e.username ≠ "zz") ∧
    ¬ ∃ e ∈ updateLeaderboard (some sampleUser) "zz" 0 none sampleLeaderboard20,
        e.username = "zz" := by
  have hzz : ∀ x ∈ sampleLeaderboard20, x.username ≠ "zz" := by decide
  refine ⟨by decide, hzz, ?_⟩
  rintro ⟨e, he, hu⟩
  have hany : sampleLeaderboard20.any (fun e => e.username = "zz") = false := by
    decide
  have hres : updateLeaderboard (some sampleUser) "zz" 0 none sampleLeaderboard20 =
      ((sampleLeaderboard20 ++ [freshZZ]).mergeSort scoreDescLe).take 20 := by
    simp [updateLeaderboard, hany, freshZZ, sampleUser]
  rw [hres] at he
  have hemem : e ∈ sampleLeaderboard20 ++ [freshZZ] :=
    List.mem_mergeSort.mp (List.mem_of_mem_take he)
  have hefresh : e = freshZZ := by
    rcases List.mem_append.mp hemem with h | h
    · exact absurd hu (hzz e h)
    · simpa using h
  subst hefresh
  obtain ⟨i, him, hieq⟩ := List.mem_take_iff_getElem.mp he
  have hlen : ((sampleLeaderboard20 ++ [freshZZ]).mergeSort scoreDescLe).length = 21 := by
    rw [List.length_mergeSort]
    decide
  have hi20 : i < 20 := Nat.lt_of_lt_of_le him (min_le_left _ _)
  have h20 : (20 : Nat) <
      ((sampleLeaderboard20 ++ [freshZZ]).mergeSort scoreDescLe).length := by
    omega
  have hsorted := pairwise_mergeSort_scoreDesc (sampleLeaderboard20 ++ [freshZZ])
  have hrel := (List.pairwise_iff_getElem.mp hsorted) i 20 (by omega) h20 hi20
  rw [hieq] at hrel
  have hmem20 : ((sampleLeaderboard20 ++ [freshZZ]).mergeSort scoreDescLe)[20] ∈
      sampleLeaderboard20 ++ [freshZZ] :=
    List.mem_mergeSort.mp (List.getElem_mem h20)
  rcases List.mem_append.mp hmem20 with h | h
  · have hsc : ∀ x ∈ sampleLeaderboard20, x.score = 1 := by decide
    have h1 := hsc _ h
    rw [h1] at hrel
    simp [freshZZ] at hrel
  · have hnd : (sampleLeaderboard20 ++ [freshZZ]).Nodup := by decide
    have hnds : ((sampleLeaderboard20 ++ [freshZZ]).mergeSort scoreDescLe).Nodup :=
      ((List.mergeSort_perm _ _).nodup_iff).mpr hnd
    have hib : i < ((sampleLeaderboard20 ++ [freshZZ]).mergeSort scoreDescLe).length := by
      omega
    have heq : ((sampleLeaderboard20 ++ [freshZZ]).mergeSort scoreDescLe)[i] =
        ((sampleLeaderboard20 ++ [freshZZ]).mergeSort scoreDescLe)[20] := by
      rw [hieq]
      exact (by simpa using h : _ = freshZZ).symm
    have := (hnds.getElem_inj_iff).mp heq
    omega

end CurioKids
